import Mathlib

/-!
Verification development for the geminae_serpens deployment orchestrator.

The repository's deploy pipeline lives in `deployment-api/` (api.py,
validator.py, cloudflare_manager.py, ports_manager.py, swarm_deployer.py)
with CI-time validators in `.github/actions/serpens-validator/`
(validate.py, security_check.py).  The Python code is embedded shallowly:

* YAML/JSON values become the inductive `PyVal`; Python dictionaries with
  string keys become association lists (`PyDict`), looked up first-match.
* Code that can raise becomes `Except PyErr`-valued; the specific Python
  exception class is tracked only as far as the sources' `except` clauses
  distinguish them (`validator.py` catches exactly `ValueError`).
* File-system state touched by the managers becomes explicit state records;
  the external effects that can fail (config-file reads/writes, the
  `cloudflared` restart, `docker stack deploy`, the HTTP fetches) become
  explicit oracle parameters recording the outcome of that one effect.
-/

set_option autoImplicit false

/-- A Python value as produced by `yaml.safe_load` / `json.load` for the
configuration files of this repository.  Floats do not occur in any code
path a claim touches (the only numeric config fields the deployment-api
inspects are integer ports and integer memory counts), so they are not
modelled. -/
inductive PyVal where
  | none
  | bool (b : Bool)
  | int (n : Int)
  | str (s : String)
  | list (elems : List PyVal)
  | dict (entries : List (String × PyVal))

/-- Python dictionaries with string keys, as association lists (first match
wins; `yaml.safe_load` never produces duplicate keys). -/
abbrev PyDict := List (String × PyVal)

/-- The Python exception classes the translated code can raise.  Only
`valueError` is ever caught selectively (validator.py line 59); the others
matter only as "some exception". -/
inductive PyErr where
  | typeError
  | attributeError
  | valueError
  | keyError
deriving DecidableEq, Repr

/-- First-match lookup in a Python dict. -/
def pyLookup : PyDict → String → Option PyVal
  | [], _ => Option.none
  | (k, v) :: rest, key => if k = key then some v else pyLookup rest key

/-- Python `==` between two scalars.  In every comparison the translated
sources perform, at least one operand is a string (`'1.0'`, `'host'`,
`'none'`, a dict key, or a required-field name), and in Python a string is
never `==` to a non-string among the types `PyVal` covers; the container
fallthrough to `false` is therefore never exercised with two containers. -/
def pyEqVal : PyVal → PyVal → Bool
  | .str a, .str b => a = b
  | .none, .none => true
  | .bool a, .bool b => a = b
  | .int a, .int b => a = b
  | .bool a, .int n => (if a then (1 : Int) else 0) = n
  | .int n, .bool a => n = (if a then (1 : Int) else 0)
  | _, _ => false

/-- Python truthiness (`bool(v)`). -/
def pyTruthy : PyVal → Bool
  | .none => false
  | .bool b => b
  | .int n => n ≠ 0
  | .str s => ¬ s.isEmpty
  | .list xs => ¬ xs.isEmpty
  | .dict xs => ¬ xs.isEmpty

/-- ASCII whitespace, for Python `str.strip()` as performed by `int(...)`
(Python also strips a handful of unicode spaces; none occur in any config
string). -/
def isPySpace (c : Char) : Bool :=
  c = ' ' || c = '\t' || c = '\n' || c = '\r' || c = Char.ofNat 11 || c = Char.ofNat 12

/-- `str.startswith(pre)`. -/
def strStartsWithB (s pre : String) : Bool := pre.data.isPrefixOf s.data

/-- `str.endswith(suf)`. -/
def strEndsWithB (s suf : String) : Bool := suf.data.reverse.isPrefixOf s.data.reverse

/-- Substring test, for Python `needle in haystack` on strings. -/
def substrB (needle hay : String) : Bool :=
  hay.data.tails.any fun t => needle.data.isPrefixOf t

/-- Left-to-right, non-overlapping replacement of `pat` (recursion fuelled
by the remaining length; `pat` is nonempty at every call site, matching
Python `str.replace` there). -/
def replaceAux (pat rep : List Char) : Nat → List Char → List Char
  | 0, s => s
  | _ + 1, [] => []
  | fuel + 1, c :: rest =>
      if pat.isPrefixOf (c :: rest) then
        rep ++ replaceAux pat rep fuel ((c :: rest).drop pat.length)
      else
        c :: replaceAux pat rep fuel rest

/-- Python `s.replace(pat, rep)` (all occurrences). -/
def strReplace (s pat rep : String) : String :=
  String.mk (replaceAux pat.data rep.data s.data.length s.data)

/-- Python `needle in container`.  Dicts test key membership, lists test
element equality, strings test substring (raising `TypeError` for a
non-string needle); scalars do not support `in`. -/
def pyIn (needle container : PyVal) : Except PyErr Bool :=
  match container with
  | .dict d => .ok (d.any fun kv => pyEqVal needle (.str kv.1))
  | .list xs => .ok (xs.any fun x => pyEqVal x needle)
  | .str hay =>
      match needle with
      | .str n => .ok (substrB n hay)
      | _ => .error .typeError
  | _ => .error .typeError

/-- Python `v[k]` for a string key: `KeyError` when the key is absent from a
dict, `TypeError` when `v` is not a dict (string/list subscripts require
integers). -/
def pySubscript (v : PyVal) (k : String) : Except PyErr PyVal :=
  match v with
  | .dict d =>
      match pyLookup d k with
      | some x => .ok x
      | Option.none => .error .keyError
  | _ => .error .typeError

/-- Python `v.get(k, d)`: only dicts have a `.get` attribute. -/
def pyDictGet (v : PyVal) (k : String) (d : PyVal) : Except PyErr PyVal :=
  match v with
  | .dict xs => .ok ((pyLookup xs k).getD d)
  | _ => .error .attributeError

/-- Calling a `str` method (`.replace`, `.endswith`, `.startswith`,
`.isalnum`) on a value: `AttributeError` unless it is a string. -/
def asStrA : PyVal → Except PyErr String
  | .str s => .ok s
  | _ => .error .attributeError

/-- Python iteration `for x in v`: lists yield elements, strings yield
one-character strings, dicts yield their keys; scalars raise `TypeError`. -/
def pyIterate : PyVal → Except PyErr (List PyVal)
  | .list xs => .ok xs
  | .str s => .ok (s.data.map fun c => .str (String.mk [c]))
  | .dict d => .ok (d.map fun kv => .str kv.1)
  | _ => .error .typeError

/-- Python `int(s)` on a string: surrounding whitespace and one sign are
allowed around a nonempty digit run, otherwise `ValueError`.  (CPython
additionally allows single underscores between digits; no string the
claims exercise contains one.) -/
def digitsVal (ds : List Char) : Option Nat :=
  if ds.isEmpty then Option.none
  else if ds.all Char.isDigit then
    some (ds.foldl (fun acc c => acc * 10 + (c.toNat - 48)) 0)
  else Option.none

/-- `l` with surrounding whitespace removed (`str.strip()`). -/
def pyStrip (l : List Char) : List Char :=
  ((l.dropWhile isPySpace).reverse.dropWhile isPySpace).reverse

def pyIntOfString (s : String) : Except PyErr Int :=
  match pyStrip s.data with
  | '-' :: ds =>
      match digitsVal ds with
      | some n => .ok (-(n : Int))
      | Option.none => .error .valueError
  | '+' :: ds =>
      match digitsVal ds with
      | some n => .ok (n : Int)
      | Option.none => .error .valueError
  | ds =>
      match digitsVal ds with
      | some n => .ok (n : Int)
      | Option.none => .error .valueError

/-- Python `v` compared against integer literals (`3000 <= v`): ints compare
directly, bools coerce to 0/1, anything else raises `TypeError`. -/
def pyAsIntCmp : PyVal → Except PyErr Int
  | .int n => .ok n
  | .bool b => .ok (if b then 1 else 0)
  | _ => .error .typeError

/-- `s[:-1]`: the string without its final character. -/
def strDropLast (s : String) : String := String.mk s.data.dropLast

/-- `s[-1].lower()`: the final character, lowercased.  Callers only reach
this when `s` is nonempty (an `int(s[:-1])` that succeeded forces length
at least 2); the default is irrelevant. -/
def strLastLower (s : String) : Char := (s.data.getLastD (Char.ofNat 0)).toLower

/-- Python `str.isalnum()`: nonempty and every character alphanumeric. -/
def pyIsAlnum (s : String) : Bool := (¬ s.isEmpty) && s.data.all Char.isAlphanum

/-- A single-quote character (`chr 39`), for reproducing Python message
strings verbatim. -/
def sqS : String := String.mk [Char.ofNat 39]


namespace ConfigValidator

/-! ### validator.py — `ConfigValidator.validate`

Each block of comments in the Python source becomes one checker below; the
final `validate` concatenates their violation lists in source order and
returns `(len(errors) == 0, errors)`. -/

/-- validator.py lines 13-16: the loop over
`['version', 'service', 'routing', 'resources', 'healthcheck']`, unrolled. -/
def checkRequired (config : PyDict) : List String :=
  (if (pyLookup config "version").isNone then ["Missing required field: version"] else []) ++
  (if (pyLookup config "service").isNone then ["Missing required field: service"] else []) ++
  (if (pyLookup config "routing").isNone then ["Missing required field: routing"] else []) ++
  (if (pyLookup config "resources").isNone then ["Missing required field: resources"] else []) ++
  (if (pyLookup config "healthcheck").isNone then ["Missing required field: healthcheck"] else [])

/-- The message of validator.py line 20 (`'1.0'` quoted as in the source). -/
def invalidVersionMsg : String := "Invalid version, must be " ++ sqS ++ "1.0" ++ sqS

/-- validator.py lines 19-20: `config.get('version') != '1.0'`. -/
def checkVersion (config : PyDict) : List String :=
  if pyEqVal ((pyLookup config "version").getD .none) (.str "1.0") then []
  else [invalidVersionMsg]

/-- validator.py lines 23-30: the `service` block. -/
def checkService (config : PyDict) : Except PyErr (List String) :=
  match pyLookup config "service" with
  | Option.none => .ok []
  | some sv => do
      let hasName ← pyIn (.str "name") sv
      let e1 ←
        if ¬ hasName then pure ["Missing service.name"]
        else do
          let nm ← pySubscript sv "name"
          let s ← asStrA nm
          pure (if pyIsAlnum (strReplace s "-" "") then []
                else ["Service name must be alphanumeric with hyphens only"])
      let hasImage ← pyIn (.str "image") sv
      pure (e1 ++ if ¬ hasImage then ["Missing service.image"] else [])

/-- validator.py lines 34-37: the `routing.domain` checks. -/
def checkRoutingDomain (rt : PyVal) : Except PyErr (List String) := do
  let hasDomain ← pyIn (.str "domain") rt
  if ¬ hasDomain then pure ["Missing routing.domain"]
  else do
    let d ← pySubscript rt "domain"
    let s ← asStrA d
    pure (if strEndsWithB s ".volodic.com" then []
          else ["Domain must end with .volodic.com"])

/-- validator.py lines 39-42: the `routing.port` checks (`3000 <=
config['routing']['port'] <= 9999`). -/
def checkRoutingPort (rt : PyVal) : Except PyErr (List String) := do
  let hasPort ← pyIn (.str "port") rt
  if ¬ hasPort then pure ["Missing routing.port"]
  else do
    let p ← pySubscript rt "port"
    let n ← pyAsIntCmp p
    pure (if 3000 ≤ n ∧ n ≤ 9999 then []
          else ["Port must be between 3000 and 9999"])

/-- validator.py lines 33-42: the `routing` block. -/
def checkRouting (config : PyDict) : Except PyErr (List String) :=
  match pyLookup config "routing" with
  | Option.none => .ok []
  | some rt => do
      let e1 ← checkRoutingDomain rt
      let e2 ← checkRoutingPort rt
      pure (e1 ++ e2)

/-- validator.py lines 49-60 applied to the string value of
`resources.memory`: the `endswith` test, then the `try: int(mem[:-1])`
block whose `ValueError` is the only caught exception. -/
def memErrsOfStr (s : String) : List String :=
  (if strEndsWithB s "m" || strEndsWithB s "M" || strEndsWithB s "g" || strEndsWithB s "G" then []
   else ["Memory must end with m/M/g/G"]) ++
  (match pyIntOfString (strDropLast s) with
   | .error _ => ["Invalid memory format"]
   | .ok value =>
       if strLastLower s = 'g' ∧ value > 1 then ["Memory limit exceeds 1GB"]
       else if strLastLower s = 'm' ∧ value < 64 then ["Memory must be at least 64m"]
       else [])

/-- validator.py lines 45-60: the `resources` block. -/
def checkResources (config : PyDict) : Except PyErr (List String) :=
  match pyLookup config "resources" with
  | Option.none => .ok []
  | some rs => do
      let hasMem ← pyIn (.str "memory") rs
      if ¬ hasMem then pure ["Missing resources.memory"]
      else do
        let m ← pySubscript rs "memory"
        let s ← asStrA m
        pure (memErrsOfStr s)

/-- validator.py lines 63-70: the `deployment` block. -/
def checkDeployment (config : PyDict) : Except PyErr (List String) :=
  match pyLookup config "deployment" with
  | Option.none => .ok []
  | some dep => do
      let priv ← pyDictGet dep "privileged" (.bool false)
      let e1 := if pyTruthy priv then ["Privileged mode is not allowed"] else []
      let hasCap ← pyIn (.str "cap_add") dep
      let e2 ←
        if hasCap then do
          let c ← pySubscript dep "cap_add"
          pure (if pyTruthy c then ["Adding capabilities is not allowed"] else [])
        else pure []
      let nm ← pyDictGet dep "network_mode" .none
      let bad ← pyIn nm (.list [.str "host", .str "none"])
      pure (e1 ++ e2 ++ if bad then ["Host/none network mode not allowed"] else [])

/-- validator.py lines 74-80: the body of `for vol in config['volumes']`
for one element. -/
def checkVolume (vol : PyVal) : Except PyErr (List String) := do
  let hasPath ← pyIn (.str "path") vol
  let e1 ←
    if ¬ hasPath then pure ["Volume missing path"]
    else do
      let p ← pySubscript vol "path"
      let s ← asStrA p
      pure (if strStartsWithB s "/app/" then []
            else ["Volume path must start with /app/: " ++ s])
  let g ← pyDictGet vol "path" (.str "")
  let trav ← pyIn (.str "..") g
  pure (e1 ++ if trav then ["Path traversal not allowed in volumes"] else [])

/-- The loop of validator.py lines 74-80 over the whole volume list. -/
def checkVolumeList : List PyVal → Except PyErr (List String)
  | [] => .ok []
  | v :: rest => do
      let e ← checkVolume v
      let es ← checkVolumeList rest
      pure (e ++ es)

/-- validator.py lines 73-80: the `volumes` block. -/
def checkVolumes (config : PyDict) : Except PyErr (List String) :=
  match pyLookup config "volumes" with
  | Option.none => .ok []
  | some vs => do
      let items ← pyIterate vs
      checkVolumeList items

/-- validator.py lines 8-82: `ConfigValidator.validate`.  Violations are
appended in source order; an uncaught exception anywhere aborts the call,
exactly as in Python. -/
def validate (config : PyDict) : Except PyErr (Bool × List String) := do
  let e1 := checkRequired config
  let e2 := checkVersion config
  let e3 ← checkService config
  let e4 ← checkRouting config
  let e5 ← checkResources config
  let e6 ← checkDeployment config
  let e7 ← checkVolumes config
  let errors := e1 ++ e2 ++ e3 ++ e4 ++ e5 ++ e6 ++ e7
  pure (errors.isEmpty, errors)

end ConfigValidator

/-! ### Well-typed configurations

`ConfigValidator.validate` raises for wrongly-typed field values (a
non-string `service.name`, a non-string `resources.memory`, …).  The
predicate below is the structural typing condition under which every
operation `validate` performs is defined: each present section is a dict
and the fields whose *values* the validator inspects have the type the
code expects.  It is stated from the operations of validator.py, not from
the spec. -/

/-- The field is absent or its value is a string. -/
def wtFieldStr (o : Option PyVal) : Bool :=
  match o with
  | Option.none => true
  | some (.str _) => true
  | some _ => false

/-- The field is absent or its value is an integer. -/
def wtFieldInt (o : Option PyVal) : Bool :=
  match o with
  | Option.none => true
  | some (.int _) => true
  | some _ => false

/-- `service` absent, or a dict whose `name` (if present) is a string. -/
def wtService : Option PyVal → Bool
  | Option.none => true
  | some (.dict d) => wtFieldStr (pyLookup d "name")
  | some _ => false

/-- `routing` absent, or a dict with string `domain` and integer `port`
(each if present). -/
def wtRouting : Option PyVal → Bool
  | Option.none => true
  | some (.dict d) => wtFieldStr (pyLookup d "domain") && wtFieldInt (pyLookup d "port")
  | some _ => false

/-- `resources` absent, or a dict whose `memory` (if present) is a string. -/
def wtResources : Option PyVal → Bool
  | Option.none => true
  | some (.dict d) => wtFieldStr (pyLookup d "memory")
  | some _ => false

/-- `deployment` absent or a dict (its field values may be anything:
validator.py only applies `.get`, `in`, and truthiness to them). -/
def wtDeployment : Option PyVal → Bool
  | Option.none => true
  | some (.dict _) => true
  | some _ => false

/-- One volume entry: a dict whose `path` (if present) is a string. -/
def wtVolume : PyVal → Bool
  | .dict d => wtFieldStr (pyLookup d "path")
  | _ => false

/-- `volumes` absent or a list of well-typed volume entries. -/
def wtVolumes : Option PyVal → Bool
  | Option.none => true
  | some (.list vs) => vs.all wtVolume
  | some _ => false

/-- A configuration dict on which every operation of
`ConfigValidator.validate` is defined. -/
def WellTypedConfig (config : PyDict) : Bool :=
  wtService (pyLookup config "service") &&
  wtRouting (pyLookup config "routing") &&
  wtResources (pyLookup config "resources") &&
  wtDeployment (pyLookup config "deployment") &&
  wtVolumes (pyLookup config "volumes")


namespace DeployApi

/-! ### api.py — the deploy pipeline -/

/-- api.py lines 167-170: `validate_deployment_config` — the only
validation the deploy pipeline runs after fetching the config.  Python's
`all(field in config for field in required_fields)` short-circuits, and
its `in` raises `TypeError` on a scalar `config`. -/
def validate_deployment_config (config : PyVal) : Except PyErr Bool := do
  let a ← pyIn (.str "service") config
  if ¬ a then pure false
  else do
    let b ← pyIn (.str "routing") config
    if ¬ b then pure false
    else pyIn (.str "resources") config

/-- Outcomes of the external effects one `deploy_service` run performs.
`swarm.deploy`, `cloudflare.add_service` and `ports.add_service` each wrap
their whole body in `try/except` and return a `bool`, so they are modelled
as boolean results; only the config fetch can raise into
`deploy_service`'s own `except`. -/
structure DeployEnv where
  fetchResult : Except PyErr PyVal
  swarmResult : Bool
  cloudflareResult : Bool
  portsResult : Bool

/-- What one `deploy_service` run did: which managers were invoked and
whether the final `Successfully deployed` log line ran. -/
structure DeployTrace where
  swarmInvoked : Bool
  cloudflareInvoked : Bool
  portsInvoked : Bool
  loggedSuccess : Bool
deriving DecidableEq, Repr

/-- api.py lines 117-145: `deploy_service`.  After a successful
`swarm.deploy`, lines 135 and 138 await `cloudflare.add_service` and
`ports.add_service` and discard both returned booleans — the trace does
not depend on `cloudflareResult` or `portsResult`. -/
def deploy_service (env : DeployEnv) : DeployTrace :=
  let run : Except PyErr DeployTrace := do
    let config ← env.fetchResult
    let ok ← validate_deployment_config config
    if ¬ ok then
      pure { swarmInvoked := false, cloudflareInvoked := false,
             portsInvoked := false, loggedSuccess := false }
    else if env.swarmResult then
      pure { swarmInvoked := true, cloudflareInvoked := true,
             portsInvoked := true, loggedSuccess := true }
    else
      pure { swarmInvoked := true, cloudflareInvoked := false,
             portsInvoked := false, loggedSuccess := false }
  match run with
  | .ok t => t
  | .error _ =>
      { swarmInvoked := false, cloudflareInvoked := false,
        portsInvoked := false, loggedSuccess := false }

end DeployApi


namespace CloudflareManager

/-! ### cloudflare_manager.py — the routing-table updater -/

/-- One ingress rule of the cloudflared config file. -/
structure IngressEntry where
  hostname : String
  path : Option String
  service : String
deriving DecidableEq, Repr

/-- The routing-table file's content: a parsed ingress list, or bytes that
do not parse (as left behind by a write that died partway). -/
inductive CfContent where
  | table (ingress : List IngressEntry)
  | corrupt
deriving DecidableEq, Repr

/-- The file-system state the manager touches: the config file and the
backup directory (ordered oldest first; `_restore_config` takes the
`sorted(...)[-1]`, i.e. the last). -/
structure CfState where
  config : CfContent
  backups : List CfContent
deriving DecidableEq, Repr

/-- One entry of `routing.paths`. -/
structure PathConf where
  path : String
  port : Int
deriving DecidableEq, Repr

/-- The `routing` block handed to `add_service` (presence of `paths`
modelled by the option). -/
structure RoutingConf where
  domain : String
  port : Int
  paths : Option (List PathConf)
deriving DecidableEq, Repr

/-- Which external step of one `add_service` call fails, if any. -/
inductive CfFailure where
  | readFail
  | writeFail
  | reloadFail
  | noFail
deriving DecidableEq, Repr

/-- Insertion at a fixed position (used under `pyInsert`). -/
def insertAt {α : Type} : Nat → α → List α → List α
  | 0, x, l => x :: l
  | _ + 1, x, [] => [x]
  | n + 1, x, a :: l => a :: insertAt n x l

/-- Python `list.insert(i, x)`: a negative index counts from the end
(clamped at 0), an index past the end appends. -/
def pyInsert {α : Type} (l : List α) (i : Int) (x : α) : List α :=
  let j : Nat := if i < 0 then (max 0 ((l.length : Int) + i)).toNat else min i.toNat l.length
  insertAt j x l

/-- cloudflare_manager.py lines 60-84: the new ingress list.
`insert_position` is computed once as `len(ingress_list) - 1`; the
path-specific entries are inserted there in reversed declaration order,
then the main entry is inserted at the same numeric position. -/
def newIngress (serviceName : String) (rc : RoutingConf) (ingress : List IngressEntry) :
    List IngressEntry :=
  let pos : Int := (ingress.length : Int) - 1
  let withPaths :=
    match rc.paths with
    | some ps =>
        ps.reverse.foldl
          (fun acc pc =>
            pyInsert acc pos
              { hostname := rc.domain, path := some pc.path,
                service := "http://" ++ serviceName ++ ":" ++ toString pc.port })
          ingress
    | Option.none => ingress
  pyInsert withPaths pos
    { hostname := rc.domain, path := Option.none,
      service := "http://" ++ serviceName ++ ":" ++ toString rc.port }

/-- cloudflare_manager.py lines 136-142: `_restore_config` copies the
lexicographically last backup over the config file (a no-op when the
backup directory is empty). -/
def restore (st : CfState) : CfState :=
  match st.backups.getLast? with
  | some b => { st with config := b }
  | Option.none => st

/-- cloudflare_manager.py lines 49-96: `add_service`.  The whole body is
wrapped in `try/except`; the except branch restores the latest backup and
returns `False`.  `_restart_cloudflared` (lines 144-162) catches its own
errors and returns `False`, so a reload failure returns through line 91
without raising — and therefore without restoring. -/
def add_service (serviceName : String) (rc : RoutingConf) (fail : CfFailure)
    (st : CfState) : Bool × CfState :=
  -- lines 52-53: _backup_config copies the live file into the backup dir
  let st1 : CfState := { st with backups := st.backups ++ [st.config] }
  -- lines 56-57: read + yaml.safe_load; a failed read or unparsable file raises
  let readRes : Option (List IngressEntry) :=
    if fail = CfFailure.readFail then Option.none
    else
      match st1.config with
      | .table l => some l
      | .corrupt => Option.none
  match readRes with
  | Option.none => (false, restore st1)
  | some ingress =>
    let newList := newIngress serviceName rc ingress
    -- lines 87-88: a write that raises partway leaves a partial file,
    -- then the except branch restores
    if fail = CfFailure.writeFail then
      (false, restore { st1 with config := CfContent.corrupt })
    else
      let st2 := { st1 with config := CfContent.table newList }
      -- line 91: return self._restart_cloudflared()
      if fail = CfFailure.reloadFail then (false, st2) else (true, st2)

end CloudflareManager


namespace PortsManager

/-! ### ports_manager.py — the port-table updater -/

/-- One record of the port table (ports.json). -/
structure PortEntry where
  name : String
  external_port : Int
  internal_port : Int
  protocol : String
  enabled : Bool
deriving DecidableEq, Repr

/-- The parsed port-table file. -/
structure PortsFile where
  ports : List PortEntry
  updated : Option String
deriving DecidableEq, Repr

/-- The file-system state: the table file (`none` = missing/unreadable)
and the backup directory, oldest first. -/
structure PortsState where
  file : Option PortsFile
  backups : List PortsFile
deriving DecidableEq, Repr

/-- ports_manager.py lines 105-112: `_backup_config` copies the file into
the backup directory when it exists. -/
def backupStep (st : PortsState) : PortsState :=
  match st.file with
  | some f => { st with backups := st.backups ++ [f] }
  | Option.none => st

/-- ports_manager.py lines 19-26: `get_current_config` returns the parsed
file, or `{'ports': []}` when the read fails. -/
def get_current_config (st : PortsState) : PortsFile :=
  st.file.getD { ports := [], updated := Option.none }

/-- ports_manager.py lines 114-120: `_restore_config` copies the last
backup over the file when the backup directory is nonempty. -/
def restoreStep (st : PortsState) : PortsState :=
  match st.backups.getLast? with
  | some b => { st with file := some b }
  | Option.none => st

/-- ports_manager.py lines 28-68: `add_service`.  Line 47 collects only
the `external_port` fields; line 48 returns `True` before any write when
the candidate port is among them, whoever owns the entry.  `now` is the
`datetime.utcnow()` timestamp; `writeOk` is the outcome of the final
`open`/`json.dump`, whose failure raises into the except branch
(restore, return `False`). -/
def add_service (serviceName : String) (port : Int) (now : String) (writeOk : Bool)
    (st : PortsState) : Bool × PortsState :=
  let st1 := backupStep st
  let config := get_current_config st1
  if (config.ports.map PortEntry.external_port).contains port then
    (true, st1)
  else
    let entry : PortEntry :=
      { name := serviceName, external_port := port, internal_port := port,
        protocol := "tcp", enabled := true }
    let newFile : PortsFile := { ports := config.ports ++ [entry], updated := some now }
    if writeOk then (true, { st1 with file := some newFile })
    else (false, restoreStep st1)

end PortsManager


namespace SerpensCI

/-! ### .github/actions/serpens-validator/validate.py — the CI validator -/

/-- One allocation as served by the `/serpens/allocations` endpoint
(check_conflicts reads only `domain` and `port`). -/
structure Allocation where
  domain : String
  port : Int
deriving DecidableEq, Repr

/-- `', '.join(...)`. -/
def joinComma : List String → String
  | [] => ""
  | [s] => s
  | s :: rest => s ++ ", " ++ joinComma rest

/-- The message of validate.py line 49. -/
def domainTakenMsg (d : String) : String :=
  "❌ Domain " ++ sqS ++ d ++ sqS ++ " is already taken!"

/-- The message of validate.py line 64. -/
def portTakenMsg (p : Int) : String :=
  "❌ Port " ++ toString p ++ " is already in use!"

/-- The message of validate.py line 77 — the bare `except:` branch. -/
def conflictWarnMsg : String :=
  "⚠️  Could not check for conflicts (API is down, or KTU is down, u can blame ur mother)"

/-- validate.py lines 40-77: `check_conflicts`.  `fetched` is the parsed
allocation list, `none` when the HTTP request, the JSON decode, or the
`config['routing']` key accesses fail — the bare `except:` on line 76
turns any of those into the single warning string. -/
def check_conflicts (fetched : Option (List Allocation))
    (routing : Option (String × Int)) : List String :=
  match fetched, routing with
  | some allocs, some (domain, port) =>
      let takenDomains := allocs.map Allocation.domain
      let e1 :=
        if takenDomains.contains domain then
          let base := strReplace domain ".volodic.com" ""
          let suggestions :=
            [base ++ "-2.volodic.com", base ++ "-app.volodic.com",
             "my-" ++ base ++ ".volodic.com", "suck-my-" ++ base ++ ".volodic.com"]
          let available := suggestions.filter fun s => ¬ takenDomains.contains s
          [domainTakenMsg domain] ++
            (if available.isEmpty then []
             else ["   Suggestions: " ++ joinComma (available.take 3)])
        else []
      let takenPorts := allocs.map Allocation.port
      let e2 :=
        if takenPorts.contains port then
          let freePorts :=
            (((List.range 7000).map fun i => (3000 : Int) + i).filter
              fun p => ¬ takenPorts.contains p).take 3
          [portTakenMsg port] ++
            ["   Available ports: " ++ joinComma (freePorts.map toString)]
        else []
      e1 ++ e2
  | _, _ => [conflictWarnMsg]

/-- validate.py lines 80-89: `validate_memory`.  The `int(...)` on line 81
is not inside any `try`, so a malformed string raises out of `main`. -/
def validate_memory (memory : String) : Except PyErr (Option String) := do
  let value ← pyIntOfString (strDropLast memory)
  let unit := strLastLower memory
  if unit = 'g' ∧ value > 1 then
    pure (some "❌ Memory request too high (max 1G for regular deployments), u should reuqest more")
  else if unit = 'm' ∧ value < 64 then
    pure (some "❌ Memory too low (minimum 64m)")
  else
    pure Option.none

/-- The typed view of the parts of serpens.yml that `main` touches:
`config.get('service', {}).get('name')`, `routing.domain`/`routing.port`
(present together or not), and `resources.memory`. -/
structure CIConfig where
  service_name : Option String
  routing : Option (String × Int)
  memory : Option String
deriving Repr

/-- validate.py lines 114-154: `main`, after the YAML was read and parsed.
`schemaErr` is the message of a `jsonschema.ValidationError`, if the
schema check (an external library call) rejected.  The returned `Bool` is
the exit status: `true` = "Validation passed" (exit 0), `false` =
`sys.exit(1)`.  The success path prints `config['routing'][...]` and
`config['resources']['memory']`, raising `KeyError` when absent. -/
def ciMain (schemaErr : Option String) (cfg : CIConfig)
    (fetched : Option (List Allocation)) (serviceName : String) :
    Except PyErr Bool := do
  let e0 :=
    match schemaErr with
    | some m => ["❌ Schema validation failed: " ++ m]
    | Option.none => []
  let e1 ←
    match cfg.memory with
    | some m => do
        let r ← validate_memory m
        pure r.toList
    | Option.none => pure []
  let errs := e0 ++ e1
  let errs := if errs.isEmpty then errs ++ check_conflicts fetched cfg.routing else errs
  let nameErr :=
    if cfg.service_name = some serviceName then []
    else ["❌ Service name must match directory name " ++ sqS ++ serviceName ++ sqS ++ ", read README"]
  let errs := errs ++ nameErr
  if errs.isEmpty then
    match cfg.routing, cfg.memory with
    | some _, some _ => pure true
    | _, _ => Except.error PyErr.keyError
  else pure false

end SerpensCI


namespace SecurityCheck

/-! ### .github/actions/serpens-validator/security_check.py — resource limits -/

/-- The message of security_check.py line 120. -/
def memLimitMsg : String := "❌ Memory limit too high (max 1GB)"

/-- The message of security_check.py line 124. -/
def cpuLimitMsg : String := "❌ CPU limit too high (max 2 cores)"

/-- security_check.py lines 113-124: the resource-limit section of
`check_serpens_security`.  `mem` is `resources.get('memory', '128m')` and
`cpu` the numeric value of `resources.get('cpu', 0.5)` — Python's
`float(cpu)` of the YAML scalar, modelled as an exact rational.  The
unguarded `int(mem[:-1])` on line 115 raises for malformed strings. -/
def resourceLimitErrors (mem : String) (cpu : ℚ) : Except PyErr (List String) := do
  let memValue ← pyIntOfString (strDropLast mem)
  let memUnit := strLastLower mem
  let e1 := if memUnit = 'g' ∧ memValue > 1 then [memLimitMsg] else []
  let e2 := if cpu > 2 then [cpuLimitMsg] else []
  pure (e1 ++ e2)

end SecurityCheck


namespace SwarmDeployer

/-! ### swarm_deployer.py — the stack deployer -/

/-- Python `str()` of a scalar.  Container rendering is not modelled
character-precisely; no theorem inspects a rendered container. -/
def pyStrOf : PyVal → String
  | .str s => s
  | .int n => toString n
  | .bool b => if b then "True" else "False"
  | .none => "None"
  | .list _ => "[...]"
  | .dict _ => "..."

/-- The healthcheck block of the stack description
(swarm_deployer.py lines 100-113). -/
structure Healthcheck where
  test : List String
  interval : PyVal
  timeout : PyVal
  retries : PyVal
  start_period : PyVal

/-- swarm_deployer.py lines 100-113: `_build_healthcheck`.
`config.get('healthcheck', {})` never raises, but `hc.get(...)` raises
`AttributeError` on a non-dict, and the curl URL reads
`config['routing']['port']` (`KeyError` when absent). -/
def buildHealthcheck (config : PyDict) : Except PyErr Healthcheck := do
  let hc := (pyLookup config "healthcheck").getD (.dict [])
  let routing ← pySubscript (.dict config) "routing"
  let port ← pySubscript routing "port"
  let endpoint ← pyDictGet hc "endpoint" (.str "/health")
  let interval ← pyDictGet hc "interval" (.str "30s")
  let timeout ← pyDictGet hc "timeout" (.str "5s")
  let retries ← pyDictGet hc "retries" (.int 3)
  let startPeriod ← pyDictGet hc "initial_delay" (.str "10s")
  pure { test := ["CMD", "curl", "-f",
                  "http://localhost:" ++ pyStrOf port ++ pyStrOf endpoint],
         interval := interval, timeout := timeout, retries := retries,
         start_period := startPeriod }

/-- swarm_deployer.py lines 63-73: one iteration of the volume loop —
the named-volume declaration `(vol_name, size)` and the mount string. -/
def buildVolumeList (serviceName : String) :
    List PyVal → Except PyErr (List (String × PyVal) × List String)
  | [] => .ok ([], [])
  | v :: rest => do
      let nm ← pySubscript v "name"
      let volName := serviceName ++ "_" ++ pyStrOf nm
      let size ← pyDictGet v "size" (.str "1Gi")
      let p ← pySubscript v "path"
      let ro ← pyDictGet v "readonly" .none
      let mount := volName ++ ":" ++ pyStrOf p ++ ":" ++ (if pyTruthy ro then "ro" else "rw")
      let (vs, ms) ← buildVolumeList serviceName rest
      pure ((volName, size) :: vs, mount :: ms)

/-- The parts of the stack description whose construction can raise
(fixed literals of swarm_deployer.py — network, placement, restart
policy — are omitted: they are constants). -/
structure StackDescription where
  image : String
  replicas : PyVal
  memory : PyVal
  cpus : String
  healthcheck : Healthcheck
  environment : PyVal
  volumes : Option (List (String × PyVal) × List String)

/-- swarm_deployer.py line 20: `config.get('github_owner',
'volodymyr-soltys97')`, used as the second argument of `str.replace`,
which requires a string. -/
def ownerOf (config : PyDict) : Except PyErr String :=
  match pyLookup config "github_owner" with
  | some v => asStrA v
  | Option.none => pure "volodymyr-soltys97"

/-- swarm_deployer.py lines 18-76: building the stack description, in
source evaluation order.  `config['deployment']` on line 31 raises
`KeyError` whenever the config has no `deployment` key. -/
def buildStack (serviceName : String) (config : PyDict) (tag : String) :
    Except PyErr StackDescription := do
  let svc ← pySubscript (.dict config) "service"
  let img ← pySubscript svc "image"
  let imgS ← asStrA img
  let owner ← ownerOf config
  let image := strReplace (strReplace imgS "${GITHUB_REPOSITORY_OWNER}" owner) "${TAG}" tag
  let dep ← pySubscript (.dict config) "deployment"
  let replicas ← pyDictGet dep "replicas" (.int 1)
  let res ← pySubscript (.dict config) "resources"
  let memory ← pySubscript res "memory"
  let cpuv ← pyDictGet res "cpu" (.str "0.5")
  let hc ← buildHealthcheck config
  let env := (pyLookup config "environment").getD (.list [])
  let vols ←
    match pyLookup config "volumes" with
    | some vv => do
        let items ← pyIterate vv
        let r ← buildVolumeList serviceName items
        pure (some r)
    | Option.none => pure Option.none
  pure { image := image, replicas := replicas, memory := memory, cpus := pyStrOf cpuv,
         healthcheck := hc, environment := env, volumes := vols }

/-- swarm_deployer.py lines 15-98: `deploy`.  The whole body sits in
`try/except Exception`, whose handler returns `False`; writing the stack
file to /tmp is assumed to succeed, and `stackDeployExit` is the
`os.system("docker stack deploy ...")` result of line 84. -/
def deploy (serviceName : String) (config : PyDict) (tag : String)
    (stackDeployExit : Int) : Bool :=
  match buildStack serviceName config tag with
  | .error _ => false
  | .ok _ => stackDeployExit = 0

end SwarmDeployer


/-! ### Concrete fixtures

Closed inputs used by the counterexamples and witnesses below. -/

/-- A config that is valid except for `routing.port = 70000`. -/
def c1Config : PyDict :=
  [("version", .str "1.0"),
   ("service", .dict [("name", .str "light"), ("image", .str "ghcr.io/o/light:v1")]),
   ("routing", .dict [("domain", .str "light.volodic.com"), ("port", .int 70000)]),
   ("resources", .dict [("memory", .str "128m")]),
   ("healthcheck", .dict [])]

/-- A pipeline run that fetches `c1Config` and whose stack deploy succeeds. -/
def c1Env : DeployApi.DeployEnv :=
  { fetchResult := .ok (.dict c1Config), swarmResult := true,
    cloudflareResult := true, portsResult := true }

/-- A fully valid config for the C2 pipeline run. -/
def c2Config : PyDict :=
  [("version", .str "1.0"),
   ("service", .dict [("name", .str "blog"), ("image", .str "ghcr.io/o/blog:v2")]),
   ("routing", .dict [("domain", .str "blog.volodic.com"), ("port", .int 3100)]),
   ("resources", .dict [("memory", .str "256m")]),
   ("healthcheck", .dict [])]

/-- A run in which the stack deploy succeeds but the routing update fails
(`cloudflare.add_service` returns `False`). -/
def c2Env : DeployApi.DeployEnv :=
  { fetchResult := .ok (.dict c2Config), swarmResult := true,
    cloudflareResult := false, portsResult := true }

/-- A config dictionary whose `resources.memory` is the integer 512 rather
than a string — the malformed input of claim C3. -/
def c3BadConfig : PyDict :=
  [("version", .str "1.0"),
   ("service", .dict [("name", .str "light"), ("image", .str "img")]),
   ("routing", .dict [("domain", .str "light.volodic.com"), ("port", .int 3000)]),
   ("resources", .dict [("memory", .int 512)]),
   ("healthcheck", .dict [])]

/-- A well-typed config exercising every section, for the C3 witness. -/
def c3GoodConfig : PyDict :=
  [("version", .str "1.0"),
   ("service", .dict [("name", .str "light"), ("image", .str "img")]),
   ("routing", .dict [("domain", .str "light.volodic.com"), ("port", .int 3000)]),
   ("resources", .dict [("memory", .str "128m")]),
   ("healthcheck", .dict []),
   ("deployment", .dict [("privileged", .bool false), ("network_mode", .str "bridge")]),
   ("volumes", .list [.dict [("name", .str "data"), ("path", .str "/app/data")]])]

/-- The typed view of a serpens.yml that is valid in every respect. -/
def c4Cfg : SerpensCI.CIConfig :=
  { service_name := some "light", routing := some ("light.volodic.com", 3000),
    memory := some "128m" }

/-- A routing table holding only the terminal catch-all rule. -/
def c5St : CloudflareManager.CfState :=
  { config := .table [{ hostname := "volodic.com", path := Option.none,
                        service := "http_status:404" }],
    backups := [] }

/-- The routing block `add_service` is called with in the C5 scenario. -/
def c5Rc : CloudflareManager.RoutingConf :=
  { domain := "light.volodic.com", port := 3000, paths := Option.none }

/-- A port table in which port 3000 is registered to `light` itself. -/
def c6St : PortsManager.PortsState :=
  { file := some { ports := [{ name := "light", external_port := 3000,
                               internal_port := 3000, protocol := "tcp",
                               enabled := true }],
                   updated := some "2025-01-01T00:00:00Z" },
    backups := [] }

/-- A config whose only oddity is `resources.cpu = 100`, far above the
2-core ceiling. -/
def c8Config : PyDict :=
  [("version", .str "1.0"),
   ("service", .dict [("name", .str "miner"), ("image", .str "img")]),
   ("routing", .dict [("domain", .str "miner.volodic.com"), ("port", .int 4000)]),
   ("resources", .dict [("memory", .str "128m"), ("cpu", .int 100)]),
   ("healthcheck", .dict [])]

/-- A port table in which port 3000 is registered to a different service
(`other`) than the candidate (`light`). -/
def c9St : PortsManager.PortsState :=
  { file := some { ports := [{ name := "other", external_port := 3000,
                               internal_port := 3000, protocol := "tcp",
                               enabled := true }],
                   updated := some "2025-01-01T00:00:00Z" },
    backups := [] }

/-- A config with no `deployment` key (all the validator's required fields
are present). -/
def c10Config : PyDict :=
  [("version", .str "1.0"),
   ("service", .dict [("name", .str "light"), ("image", .str "ghcr.io/o/light:v1")]),
   ("routing", .dict [("domain", .str "light.volodic.com"), ("port", .int 3000)]),
   ("resources", .dict [("memory", .str "128m")]),
   ("healthcheck", .dict [])]

/-- The four memory-bound violation strings of validator.py lines 51-60. -/
def memoryMsgs : List String :=
  ["Memory must end with m/M/g/G", "Invalid memory format",
   "Memory limit exceeds 1GB", "Memory must be at least 64m"]


/-! ### Supporting lemmas -/

@[simp] theorem exceptBind_ok {α β : Type} (a : α) (f : α → Except PyErr β) :
    (Except.ok a >>= f) = f a := rfl

@[simp] theorem exceptBind_error {α β : Type} (e : PyErr) (f : α → Except PyErr β) :
    ((Except.error e : Except PyErr α) >>= f) = .error e := rfl

@[simp] theorem exceptPure_eq {α : Type} (a : α) :
    (pure a : Except PyErr α) = .ok a := rfl

@[simp] theorem pyEqVal_str_str (a b : String) :
    pyEqVal (.str a) (.str b) = decide (a = b) := rfl

theorem any_key_eq_isSome (d : PyDict) (k : String) :
    (d.any fun kv => decide (k = kv.1)) = (pyLookup d k).isSome := by
  induction d with
  | nil => simp [pyLookup]
  | cons kv rest ih =>
      obtain ⟨k', v⟩ := kv
      by_cases h : k' = k
      · subst h; simp [pyLookup]
      · simp [pyLookup, h, Ne.symm h, ih]

theorem pyIn_key_dict (k : String) (d : PyDict) :
    pyIn (.str k) (.dict d) = .ok (pyLookup d k).isSome := by
  simp [pyIn, any_key_eq_isSome]

/-- ports_manager.py lines 46-50: whenever the candidate external port is
already present in the table — regardless of which service owns the
entry — `add_service` returns `True` before any write, leaving the table
file untouched (only a backup side-file is created). -/
theorem ports_add_existing (sn : String) (p : Int) (now : String) (w : Bool)
    (st : PortsManager.PortsState) (f : PortsManager.PortsFile) (e : PortsManager.PortEntry)
    (hf : st.file = some f) (he : e ∈ f.ports) (hp : e.external_port = p) :
    PortsManager.add_service sn p now w st = (true, PortsManager.backupStep st) := by
  unfold PortsManager.add_service
  have hmem : p ∈ ((PortsManager.get_current_config (PortsManager.backupStep st)).ports.map
      PortsManager.PortEntry.external_port) := by
    simp [PortsManager.backupStep, PortsManager.get_current_config, hf]
    exact ⟨e, he, hp⟩
  rw [if_pos]
  simpa using hmem

theorem backupStep_file (st : PortsManager.PortsState) :
    (PortsManager.backupStep st).file = st.file := by
  cases h : st.file <;> simp [PortsManager.backupStep, h]

/-- C6: for every port table in which the service's external port is
already registered to that same service, a second `add_service` call for
the same service and port returns `True` and leaves the port-table file
unchanged (no new entry, no rewrite). -/
theorem c6_ports_add_idempotent_same_service
    (sn : String) (p : Int) (now : String) (w : Bool)
    (st : PortsManager.PortsState) (f : PortsManager.PortsFile) (e : PortsManager.PortEntry)
    (hf : st.file = some f) (he : e ∈ f.ports)
    (hp : e.external_port = p) (hname : e.name = sn) :
    (PortsManager.add_service sn p now w st).1 = true ∧
    (PortsManager.add_service sn p now w st).2.file = st.file := by
  rw [ports_add_existing sn p now w st f e hf he hp]
  exact ⟨rfl, backupStep_file st⟩

theorem c6_witness :
    (PortsManager.add_service "light" 3000 "t1" true c6St).1 = true ∧
    (PortsManager.add_service "light" 3000 "t1" true c6St).2.file = c6St.file :=
  c6_ports_add_idempotent_same_service "light" 3000 "t1" true c6St
    { ports := [{ name := "light", external_port := 3000, internal_port := 3000,
                  protocol := "tcp", enabled := true }],
      updated := some "2025-01-01T00:00:00Z" }
    { name := "light", external_port := 3000, internal_port := 3000,
      protocol := "tcp", enabled := true }
    rfl (by decide) rfl rfl

/-- C9: for every port table in which the candidate external port is
already registered to a different service, `add_service` still returns
`True` and leaves the table unchanged — the existing entry's owner is
never consulted, so a cross-service port collision is reported as a
successful add. -/
theorem c9_ports_add_ignores_ownership
    (sn : String) (p : Int) (now : String) (w : Bool)
    (st : PortsManager.PortsState) (f : PortsManager.PortsFile) (e : PortsManager.PortEntry)
    (hf : st.file = some f) (he : e ∈ f.ports)
    (hp : e.external_port = p) (hname : e.name ≠ sn) :
    (PortsManager.add_service sn p now w st).1 = true ∧
    (PortsManager.add_service sn p now w st).2.file = st.file := by
  rw [ports_add_existing sn p now w st f e hf he hp]
  exact ⟨rfl, backupStep_file st⟩

theorem c9_witness :
    (PortsManager.add_service "light" 3000 "t1" true c9St).1 = true ∧
    (PortsManager.add_service "light" 3000 "t1" true c9St).2.file = c9St.file :=
  c9_ports_add_ignores_ownership "light" 3000 "t1" true c9St
    { ports := [{ name := "other", external_port := 3000, internal_port := 3000,
                  protocol := "tcp", enabled := true }],
      updated := some "2025-01-01T00:00:00Z" }
    { name := "other", external_port := 3000, internal_port := 3000,
      protocol := "tcp", enabled := true }
    rfl (by decide) rfl (by decide)

/-- C2 (amended): once `swarm.deploy` succeeds, `deploy_service` invokes
`cloudflare.add_service` and then `ports.add_service` and logs success,
regardless of the routing update's returned result — api.py lines 135 and
138 discard both booleans, so a failed routing update neither prevents the
port-table update nor fails the run. -/
theorem c2_ports_update_ignores_routing_result
    (env : DeployApi.DeployEnv) (config : PyVal)
    (hf : env.fetchResult = .ok config)
    (hv : DeployApi.validate_deployment_config config = .ok true)
    (hs : env.swarmResult = true) :
    (DeployApi.deploy_service env).cloudflareInvoked = true ∧
    (DeployApi.deploy_service env).portsInvoked = true ∧
    (DeployApi.deploy_service env).loggedSuccess = true := by
  simp [DeployApi.deploy_service, hf, hv, hs]

/-- C2 counterexample: a run in which the routing update fails
(`cloudflareResult = false`) yet the port-table update runs and the
pipeline logs `Successfully deployed`. -/
theorem c2_counterexample :
    c2Env.cloudflareResult = false ∧
    DeployApi.deploy_service c2Env =
      { swarmInvoked := true, cloudflareInvoked := true,
        portsInvoked := true, loggedSuccess := true } :=
  ⟨rfl, rfl⟩

theorem c2_witness :
    (DeployApi.deploy_service c2Env).cloudflareInvoked = true ∧
    (DeployApi.deploy_service c2Env).portsInvoked = true ∧
    (DeployApi.deploy_service c2Env).loggedSuccess = true :=
  c2_ports_update_ignores_routing_result c2Env (.dict c2Config) rfl rfl rfl

theorem length_insertAt {α : Type} (j : Nat) (x : α) (l : List α) :
    (CloudflareManager.insertAt j x l).length = l.length + 1 := by
  induction j generalizing l with
  | zero => simp [CloudflareManager.insertAt]
  | succ n ih => cases l <;> simp [CloudflareManager.insertAt, ih]

theorem length_pyInsert {α : Type} (l : List α) (i : Int) (x : α) :
    (CloudflareManager.pyInsert l i x).length = l.length + 1 := by
  unfold CloudflareManager.pyInsert
  exact length_insertAt _ _ _

theorem length_foldl_pyInsert {α β : Type} (g : β → α) (pos : Int)
    (ps : List β) (acc : List α) :
    (ps.foldl (fun a p => CloudflareManager.pyInsert a pos (g p)) acc).length =
      acc.length + ps.length := by
  induction ps generalizing acc with
  | nil => simp
  | cons p rest ih =>
      simp only [List.foldl_cons, ih, length_pyInsert, List.length_cons]
      omega

theorem newIngress_longer (sn : String) (rc : CloudflareManager.RoutingConf)
    (l : List CloudflareManager.IngressEntry) :
    l.length < (CloudflareManager.newIngress sn rc l).length := by
  unfold CloudflareManager.newIngress
  cases hp : rc.paths with
  | none => simp [length_pyInsert]
  | some ps =>
      simp only [length_pyInsert, length_foldl_pyInsert]
      omega

/-- C5 (amended): `add_service` restores the pre-call backup and reports
failure when the read or the write raises; but when the `cloudflared`
reload fails, it reports failure while leaving the newly written table in
place — the routing-table content then differs from the pre-call content
instead of equalling it. -/
theorem c5_routing_add_restores_only_on_raise
    (sn : String) (rc : CloudflareManager.RoutingConf) (st : CloudflareManager.CfState)
    (fail : CloudflareManager.CfFailure) (h : fail ≠ CloudflareManager.CfFailure.noFail) :
    (CloudflareManager.add_service sn rc fail st).1 = false ∧
    ((fail = CloudflareManager.CfFailure.readFail ∨ fail = CloudflareManager.CfFailure.writeFail) →
      (CloudflareManager.add_service sn rc fail st).2.config = st.config) ∧
    (∀ l, fail = CloudflareManager.CfFailure.reloadFail →
      st.config = CloudflareManager.CfContent.table l →
      (CloudflareManager.add_service sn rc fail st).2.config =
        CloudflareManager.CfContent.table (CloudflareManager.newIngress sn rc l) ∧
      (CloudflareManager.add_service sn rc fail st).2.config ≠ st.config) := by
  cases fail with
  | noFail => exact absurd rfl h
  | readFail =>
      refine ⟨?_, fun _ => ?_, fun l hl => by simp at hl⟩ <;>
        simp [CloudflareManager.add_service, CloudflareManager.restore, List.getLast?_concat]
  | writeFail =>
      cases hc : st.config with
      | table l =>
          refine ⟨?_, fun _ => ?_, fun l hl => by simp at hl⟩ <;>
            simp [CloudflareManager.add_service, CloudflareManager.restore,
                  List.getLast?_concat, hc]
      | corrupt =>
          refine ⟨?_, fun _ => ?_, fun l hl => by simp at hl⟩ <;>
            simp [CloudflareManager.add_service, CloudflareManager.restore,
                  List.getLast?_concat, hc]
  | reloadFail =>
      cases hc : st.config with
      | table l =>
          refine ⟨?_, fun hor => by simp at hor, fun l2 _ hl2 => ?_⟩
          · simp [CloudflareManager.add_service, hc]
          · injection hl2 with hl2
            subst hl2
            refine ⟨by simp [CloudflareManager.add_service, hc], ?_⟩
            simp only [CloudflareManager.add_service, hc]
            intro heq
            have hlen := newIngress_longer sn rc l
            simp at heq
            rw [heq] at hlen
            exact lt_irrefl _ hlen
      | corrupt =>
          refine ⟨?_, fun hor => by simp at hor, fun l2 _ hl2 => ?_⟩
          · simp [CloudflareManager.add_service, CloudflareManager.restore,
                  List.getLast?_concat, hc]
          · exact absurd hl2 (by simp)

/-- C5 counterexample: a reload failure on a concrete one-rule table —
`add_service` reports failure, yet the table content afterwards is the
newly written table, not the pre-call content. -/
theorem c5_counterexample :
    (CloudflareManager.add_service "light" c5Rc CloudflareManager.CfFailure.reloadFail c5St).1 = false ∧
    (CloudflareManager.add_service "light" c5Rc CloudflareManager.CfFailure.reloadFail c5St).2.config ≠ c5St.config := by
  exact ⟨rfl, by decide⟩

theorem c5_witness :
    (CloudflareManager.add_service "light" c5Rc CloudflareManager.CfFailure.writeFail c5St).1 = false ∧
    (CloudflareManager.add_service "light" c5Rc CloudflareManager.CfFailure.writeFail c5St).2.config = c5St.config := by
  have h := c5_routing_add_restores_only_on_raise "light" c5Rc c5St
    CloudflareManager.CfFailure.writeFail (by decide)
  exact ⟨h.1, h.2.1 (Or.inr rfl)⟩

/-- C4 (amended): when the allocations read fails, `check_conflicts`
degrades to the single warning string rather than conflict violations —
but `main` extends its error list with that warning and exits 1: the
warning is counted as a blocking violation, and an otherwise fully valid
config fails the validation run. -/
theorem c4_conflict_warning_blocks_validation
    (cfg : SerpensCI.CIConfig) (sn m : String)
    (hname : cfg.service_name = some sn)
    (hmem : cfg.memory = some m)
    (hmok : SerpensCI.validate_memory m = .ok Option.none) :
    SerpensCI.check_conflicts Option.none cfg.routing = [SerpensCI.conflictWarnMsg] ∧
    SerpensCI.ciMain Option.none cfg Option.none sn = .ok false := by
  constructor
  · rfl
  · simp [SerpensCI.ciMain, hname, hmem, hmok, SerpensCI.check_conflicts]

/-- C4 counterexample: a config valid in every respect (matching name,
valid memory, in-range port) still exits 1 when the allocations source is
unreachable — the run fails on the warning alone. -/
theorem c4_counterexample :
    SerpensCI.check_conflicts Option.none c4Cfg.routing = [SerpensCI.conflictWarnMsg] ∧
    SerpensCI.ciMain Option.none c4Cfg Option.none "light" = .ok false :=
  ⟨rfl, rfl⟩

theorem c4_witness :
    SerpensCI.check_conflicts Option.none
      (SerpensCI.CIConfig.routing
        { service_name := some "blog", routing := some ("blog.volodic.com", 3100),
          memory := some "256m" }) = [SerpensCI.conflictWarnMsg] ∧
    SerpensCI.ciMain Option.none
      { service_name := some "blog", routing := some ("blog.volodic.com", 3100),
        memory := some "256m" } Option.none "blog" = .ok false :=
  c4_conflict_warning_blocks_validation
    { service_name := some "blog", routing := some ("blog.volodic.com", 3100),
      memory := some "256m" } "blog" "256m" rfl rfl rfl

/-- C8 (amended): `ConfigValidator.validate` never inspects
`resources.cpu` — a config requesting 100 cores passes with no violations
— and the 2-core ceiling is enforced only by the CI security check, whose
resource section reports the cpu violation whenever `cpu > 2`. -/
theorem c8_cpu_ceiling_only_in_security_check
    (mem : String) (cpu : ℚ) (l : List String)
    (h : SecurityCheck.resourceLimitErrors mem cpu = .ok l) (hc : 2 < cpu) :
    SecurityCheck.cpuLimitMsg ∈ l ∧
    ConfigValidator.validate c8Config = .ok (true, []) := by
  refine ⟨?_, rfl⟩
  unfold SecurityCheck.resourceLimitErrors at h
  cases hm : pyIntOfString (strDropLast mem) with
  | error e => rw [hm] at h; simp at h
  | ok v =>
      rw [hm] at h
      simp only [exceptBind_ok, exceptPure_eq, Except.ok.injEq] at h
      subst h
      exact List.mem_append_right _ (by simp [hc])

/-- C8 counterexample: `c8Config` carries `resources.cpu = 100`, far above
the 2-core ceiling, yet `validate` returns `ok = true` with an empty
violation list — it performs no cpu check at all. -/
theorem c8_counterexample :
    pyLookup c8Config "resources" = some (.dict [("memory", .str "128m"), ("cpu", .int 100)]) ∧
    pyLookup [("memory", PyVal.str "128m"), ("cpu", PyVal.int 100)] "cpu" = some (.int 100) ∧
    ConfigValidator.validate c8Config = .ok (true, []) :=
  ⟨rfl, rfl, rfl⟩

theorem c8_witness :
    SecurityCheck.cpuLimitMsg ∈ [SecurityCheck.cpuLimitMsg] ∧
    ConfigValidator.validate c8Config = .ok (true, []) :=
  c8_cpu_ceiling_only_in_security_check "128m" 3 [SecurityCheck.cpuLimitMsg] rfl (by decide)

theorem buildStack_error_without_deployment (sn : String) (config : PyDict) (tag : String)
    (h : pyLookup config "deployment" = Option.none) :
    ∀ sd, SwarmDeployer.buildStack sn config tag ≠ .ok sd := by
  intro sd hok
  unfold SwarmDeployer.buildStack at hok
  cases h1 : pySubscript (.dict config) "service" with
  | error e => rw [h1] at hok; simp at hok
  | ok svc =>
      rw [h1] at hok
      simp only [exceptBind_ok] at hok
      cases h2 : pySubscript svc "image" with
      | error e => rw [h2] at hok; simp at hok
      | ok img =>
          rw [h2] at hok
          simp only [exceptBind_ok] at hok
          cases h3 : asStrA img with
          | error e => rw [h3] at hok; simp at hok
          | ok imgS =>
              rw [h3] at hok
              simp only [exceptBind_ok] at hok
              have hdep : pySubscript (.dict config) "deployment" = .error .keyError := by
                simp [pySubscript, h]
              cases h4 : SwarmDeployer.ownerOf config with
              | error e => rw [h4] at hok; simp at hok
              | ok owner =>
                  rw [h4] at hok
                  simp only [exceptBind_ok, hdep, exceptBind_error] at hok
                  exact Except.noConfusion hok

/-- C10: for every config without a `deployment` top-level key — a config
the validator accepts, `deployment` not being among its required fields —
`SwarmDeployer.deploy` returns `False` rather than raising: the `KeyError`
from `config['deployment']` is swallowed by the `try/except` at the deploy
boundary (for any `docker stack deploy` exit code). -/
theorem c10_deploy_false_without_deployment_key
    (sn : String) (config : PyDict) (tag : String) (exitCode : Int)
    (h : pyLookup config "deployment" = Option.none) :
    SwarmDeployer.deploy sn config tag exitCode = false ∧
    "Missing required field: deployment" ∉ ConfigValidator.checkRequired config := by
  constructor
  · unfold SwarmDeployer.deploy
    cases hb : SwarmDeployer.buildStack sn config tag with
    | error e => rfl
    | ok sd => exact absurd hb (buildStack_error_without_deployment sn config tag h sd)
  · intro hmem
    unfold ConfigValidator.checkRequired at hmem
    split_ifs at hmem <;> simp_all

theorem c10_witness :
    SwarmDeployer.deploy "light" c10Config "v1" 0 = false ∧
    "Missing required field: deployment" ∉ ConfigValidator.checkRequired c10Config :=
  c10_deploy_false_without_deployment_key "light" c10Config "v1" 0 rfl

theorem checkRequired_subset (config : PyDict) :
    ∀ s ∈ ConfigValidator.checkRequired config,
      s ∈ ["Missing required field: version", "Missing required field: service",
           "Missing required field: routing", "Missing required field: resources",
           "Missing required field: healthcheck"] := by
  intro s hs
  unfold ConfigValidator.checkRequired at hs
  split_ifs at hs <;> simp_all <;> tauto

theorem checkVersion_subset (config : PyDict) :
    ∀ s ∈ ConfigValidator.checkVersion config, s = ConfigValidator.invalidVersionMsg := by
  intro s hs
  unfold ConfigValidator.checkVersion at hs
  split_ifs at hs <;> simp_all

theorem checkService_subset (config : PyDict) (l : List String)
    (h : ConfigValidator.checkService config = .ok l) :
    ∀ s ∈ l, s ∈ ["Missing service.name",
                  "Service name must be alphanumeric with hyphens only",
                  "Missing service.image"] := by
  intro s hs
  cases hsv : pyLookup config "service" with
  | none =>
      simp only [ConfigValidator.checkService, hsv] at h
      simp at h; subst h; simp at hs
  | some sv =>
      simp only [ConfigValidator.checkService, hsv] at h
      cases h1 : pyIn (.str "name") sv with
      | error e => rw [h1] at h; simp at h
      | ok hasName =>
          rw [h1] at h
          simp only [exceptBind_ok] at h
          cases hasName with
          | false =>
              cases h2 : pyIn (.str "image") sv with
              | error e => rw [h2] at h; simp at h
              | ok hasImage =>
                  rw [h2] at h
                  simp at h
                  subst h
                  cases hasImage <;> simp_all <;> tauto
          | true =>
              cases h2 : pySubscript sv "name" with
              | error e => rw [h2] at h; simp at h
              | ok nv =>
                  rw [h2] at h
                  simp only [exceptBind_ok] at h
                  cases h3 : asStrA nv with
                  | error e => rw [h3] at h; simp at h
                  | ok nm =>
                      rw [h3] at h
                      simp only [exceptBind_ok, exceptPure_eq] at h
                      cases h4 : pyIn (.str "image") sv with
                      | error e => rw [h4] at h; simp at h
                      | ok hasImage =>
                          rw [h4] at h
                          simp at h
                          subst h
                          split_ifs at hs <;> simp_all <;> tauto

theorem checkService_ok (config : PyDict)
    (h : wtService (pyLookup config "service") = true) :
    ∃ l, ConfigValidator.checkService config = .ok l := by
  cases hsv : pyLookup config "service" with
  | none => exact ⟨[], by simp [ConfigValidator.checkService, hsv]⟩
  | some sv =>
      rw [hsv] at h
      cases sv <;> simp [wtService] at h
      rename_i d
      cases hname : pyLookup d "name" with
      | none => simp [ConfigValidator.checkService, hsv, pyIn_key_dict, hname]
      | some nv =>
          rw [hname] at h
          cases nv <;> simp [wtFieldStr] at h
          rename_i nm
          simp [ConfigValidator.checkService, hsv, pyIn_key_dict, hname,
                pySubscript, asStrA]

theorem checkRoutingDomain_subset (rt : PyVal) (l : List String)
    (h : ConfigValidator.checkRoutingDomain rt = .ok l) :
    ∀ s ∈ l, s ∈ ["Missing routing.domain", "Domain must end with .volodic.com"] := by
  intro s hs
  unfold ConfigValidator.checkRoutingDomain at h
  cases h1 : pyIn (.str "domain") rt with
  | error e => rw [h1] at h; simp at h
  | ok hasD =>
      rw [h1] at h
      simp only [exceptBind_ok] at h
      cases hasD with
      | false => simp at h; subst h; simp_all
      | true =>
          cases h2 : pySubscript rt "domain" with
          | error e => rw [h2] at h; simp at h
          | ok dv =>
              rw [h2] at h
              simp only [exceptBind_ok] at h
              cases h3 : asStrA dv with
              | error e => rw [h3] at h; simp at h
              | ok ds =>
                  rw [h3] at h
                  simp at h
                  subst h
                  split_ifs at hs <;> simp_all

theorem checkRoutingPort_subset (rt : PyVal) (l : List String)
    (h : ConfigValidator.checkRoutingPort rt = .ok l) :
    ∀ s ∈ l, s ∈ ["Missing routing.port", "Port must be between 3000 and 9999"] := by
  intro s hs
  unfold ConfigValidator.checkRoutingPort at h
  cases h1 : pyIn (.str "port") rt with
  | error e => rw [h1] at h; simp at h
  | ok hasP =>
      rw [h1] at h
      simp only [exceptBind_ok] at h
      cases hasP with
      | false => simp at h; subst h; simp_all
      | true =>
          cases h2 : pySubscript rt "port" with
          | error e => rw [h2] at h; simp at h
          | ok pv =>
              rw [h2] at h
              simp only [exceptBind_ok] at h
              cases h3 : pyAsIntCmp pv with
              | error e => rw [h3] at h; simp at h
              | ok n =>
                  rw [h3] at h
                  simp at h
                  subst h
                  split_ifs at hs <;> simp_all

theorem checkRouting_subset (config : PyDict) (l : List String)
    (h : ConfigValidator.checkRouting config = .ok l) :
    ∀ s ∈ l, s ∈ ["Missing routing.domain", "Domain must end with .volodic.com",
                  "Missing routing.port", "Port must be between 3000 and 9999"] := by
  intro s hs
  cases hrt : pyLookup config "routing" with
  | none =>
      simp only [ConfigValidator.checkRouting, hrt] at h
      simp at h; subst h; simp at hs
  | some rt =>
      simp only [ConfigValidator.checkRouting, hrt] at h
      cases h1 : ConfigValidator.checkRoutingDomain rt with
      | error e => rw [h1] at h; simp at h
      | ok l1 =>
          rw [h1] at h
          simp only [exceptBind_ok] at h
          cases h2 : ConfigValidator.checkRoutingPort rt with
          | error e => rw [h2] at h; simp at h
          | ok l2 =>
              rw [h2] at h
              simp at h
              subst h
              rcases List.mem_append.mp hs with hm | hm
              · have := checkRoutingDomain_subset rt l1 h1 s hm
                simp_all <;> tauto
              · have := checkRoutingPort_subset rt l2 h2 s hm
                simp_all <;> tauto

theorem checkRoutingDomain_ok (rt : PyDict)
    (h : wtFieldStr (pyLookup rt "domain") = true) :
    ∃ l, ConfigValidator.checkRoutingDomain (.dict rt) = .ok l := by
  cases hd : pyLookup rt "domain" with
  | none => simp [ConfigValidator.checkRoutingDomain, pyIn_key_dict, hd]
  | some dv =>
      rw [hd] at h
      cases dv <;> simp [wtFieldStr] at h
      rename_i ds
      simp [ConfigValidator.checkRoutingDomain, pyIn_key_dict, hd,
            pySubscript, asStrA]

theorem checkRoutingPort_ok (rt : PyDict)
    (h : wtFieldInt (pyLookup rt "port") = true) :
    ∃ l, ConfigValidator.checkRoutingPort (.dict rt) = .ok l := by
  cases hp : pyLookup rt "port" with
  | none => simp [ConfigValidator.checkRoutingPort, pyIn_key_dict, hp]
  | some pv =>
      rw [hp] at h
      cases pv <;> simp [wtFieldInt] at h
      rename_i n
      simp [ConfigValidator.checkRoutingPort, pyIn_key_dict, hp,
            pySubscript, pyAsIntCmp]

theorem checkRouting_ok (config : PyDict)
    (h : wtRouting (pyLookup config "routing") = true) :
    ∃ l, ConfigValidator.checkRouting config = .ok l := by
  cases hrt : pyLookup config "routing" with
  | none => exact ⟨[], by simp [ConfigValidator.checkRouting, hrt]⟩
  | some rt =>
      rw [hrt] at h
      cases rt <;> simp [wtRouting] at h
      rename_i d
      obtain ⟨l1, h1⟩ := checkRoutingDomain_ok d h.1
      obtain ⟨l2, h2⟩ := checkRoutingPort_ok d h.2
      exact ⟨l1 ++ l2, by simp [ConfigValidator.checkRouting, hrt, h1, h2]⟩

theorem checkRoutingPort_out_of_range (rt : PyDict) (p : Int)
    (hp : pyLookup rt "port" = some (.int p)) (hout : p < 3000 ∨ 9999 < p) :
    ConfigValidator.checkRoutingPort (.dict rt) =
      .ok ["Port must be between 3000 and 9999"] := by
  have : ¬ (3000 ≤ p ∧ p ≤ 9999) := by omega
  simp [ConfigValidator.checkRoutingPort, pyIn_key_dict, hp,
        pySubscript, pyAsIntCmp, this]

theorem memErrsOfStr_subset (m : String) :
    ∀ s ∈ ConfigValidator.memErrsOfStr m, s ∈ memoryMsgs := by
  intro s hs
  unfold ConfigValidator.memErrsOfStr at hs
  rcases List.mem_append.mp hs with hm | hm
  · split_ifs at hm <;> simp_all [memoryMsgs]
  · split at hm
    · simp_all [memoryMsgs]
    · split_ifs at hm <;> simp_all [memoryMsgs]

theorem checkResources_subset (config : PyDict) (l : List String)
    (h : ConfigValidator.checkResources config = .ok l) :
    ∀ s ∈ l, s ∈ "Missing resources.memory" :: memoryMsgs := by
  intro s hs
  cases hrs : pyLookup config "resources" with
  | none =>
      simp only [ConfigValidator.checkResources, hrs] at h
      simp at h; subst h; simp at hs
  | some rs =>
      simp only [ConfigValidator.checkResources, hrs] at h
      cases h1 : pyIn (.str "memory") rs with
      | error e => rw [h1] at h; simp at h
      | ok hasM =>
          rw [h1] at h
          simp only [exceptBind_ok] at h
          cases hasM with
          | false => simp at h; subst h; simp_all
          | true =>
              cases h2 : pySubscript rs "memory" with
              | error e => rw [h2] at h; simp at h
              | ok mv =>
                  rw [h2] at h
                  simp only [exceptBind_ok] at h
                  cases h3 : asStrA mv with
                  | error e => rw [h3] at h; simp at h
                  | ok m =>
                      rw [h3] at h
                      simp at h
                      subst h
                      exact List.mem_cons_of_mem _ (memErrsOfStr_subset m s hs)

theorem checkResources_ok (config : PyDict)
    (h : wtResources (pyLookup config "resources") = true) :
    ∃ l, ConfigValidator.checkResources config = .ok l := by
  cases hrs : pyLookup config "resources" with
  | none => exact ⟨[], by simp [ConfigValidator.checkResources, hrs]⟩
  | some rs =>
      rw [hrs] at h
      cases rs <;> simp [wtResources] at h
      rename_i d
      cases hm : pyLookup d "memory" with
      | none => simp [ConfigValidator.checkResources, hrs, pyIn_key_dict, hm]
      | some mv =>
          rw [hm] at h
          cases mv <;> simp [wtFieldStr] at h
          rename_i m
          simp [ConfigValidator.checkResources, hrs, pyIn_key_dict, hm,
                pySubscript, asStrA]

theorem checkResources_eq_memErrs (config : PyDict) (rs : PyDict) (m : String)
    (hrs : pyLookup config "resources" = some (.dict rs))
    (hm : pyLookup rs "memory" = some (.str m)) :
    ConfigValidator.checkResources config = .ok (ConfigValidator.memErrsOfStr m) := by
  simp [ConfigValidator.checkResources, hrs, pyIn_key_dict, hm,
        pySubscript, asStrA]

theorem checkDeployment_subset (config : PyDict) (l : List String)
    (h : ConfigValidator.checkDeployment config = .ok l) :
    ∀ s ∈ l, s ∈ ["Privileged mode is not allowed", "Adding capabilities is not allowed",
                  "Host/none network mode not allowed"] := by
  intro s hs
  cases hdp : pyLookup config "deployment" with
  | none =>
      simp only [ConfigValidator.checkDeployment, hdp] at h
      simp at h; subst h; simp at hs
  | some dep =>
      simp only [ConfigValidator.checkDeployment, hdp] at h
      cases h1 : pyDictGet dep "privileged" (.bool false) with
      | error e => rw [h1] at h; simp at h
      | ok priv =>
          rw [h1] at h
          simp only [exceptBind_ok] at h
          cases h2 : pyIn (.str "cap_add") dep with
          | error e => rw [h2] at h; simp at h
          | ok hasCap =>
              rw [h2] at h
              simp only [exceptBind_ok] at h
              cases hasCap with
              | false =>
                  cases h3 : pyDictGet dep "network_mode" .none with
                  | error e => rw [h3] at h; simp at h
                  | ok nm =>
                      rw [h3] at h
                      simp only [exceptBind_ok] at h
                      cases h4 : pyIn nm (.list [.str "host", .str "none"]) with
                      | error e => rw [h4] at h; simp at h
                      | ok bad =>
                          rw [h4] at h
                          simp at h
                          subst h
                          split_ifs at hs <;> simp_all <;> tauto
              | true =>
                  cases h5 : pySubscript dep "cap_add" with
                  | error e => rw [h5] at h; simp at h
                  | ok c =>
                      rw [h5] at h
                      simp only [exceptBind_ok] at h
                      cases h3 : pyDictGet dep "network_mode" .none with
                      | error e => rw [h3] at h; simp at h
                      | ok nm =>
                          rw [h3] at h
                          simp only [exceptBind_ok] at h
                          cases h4 : pyIn nm (.list [.str "host", .str "none"]) with
                          | error e => rw [h4] at h; simp at h
                          | ok bad =>
                              rw [h4] at h
                              simp at h
                              subst h
                              split_ifs at hs <;> simp_all <;> tauto

theorem checkDeployment_ok (config : PyDict)
    (h : wtDeployment (pyLookup config "deployment") = true) :
    ∃ l, ConfigValidator.checkDeployment config = .ok l := by
  cases hdp : pyLookup config "deployment" with
  | none => exact ⟨[], by simp [ConfigValidator.checkDeployment, hdp]⟩
  | some dep =>
      rw [hdp] at h
      cases dep <;> simp [wtDeployment] at h
      rename_i d
      cases hcap : pyLookup d "cap_add" with
      | none =>
          simp [ConfigValidator.checkDeployment, hdp, pyDictGet,
                any_key_eq_isSome, hcap, pyIn]
      | some c =>
          simp [ConfigValidator.checkDeployment, hdp, pyDictGet,
                any_key_eq_isSome, hcap, pySubscript, pyIn]

theorem checkVolume_subset (v : PyVal) (l : List String)
    (h : ConfigValidator.checkVolume v = .ok l) :
    ∀ s ∈ l, s = "Volume missing path" ∨ s = "Path traversal not allowed in volumes" ∨
      ∃ t, s = "Volume path must start with /app/: " ++ t := by
  intro s hs
  unfold ConfigValidator.checkVolume at h
  cases h1 : pyIn (.str "path") v with
  | error e => rw [h1] at h; simp at h
  | ok hasPath =>
      rw [h1] at h
      simp only [exceptBind_ok] at h
      cases hasPath with
      | false =>
          cases h2 : pyDictGet v "path" (.str "") with
          | error e => rw [h2] at h; simp at h
          | ok g =>
              rw [h2] at h
              simp only [exceptBind_ok] at h
              cases h3 : pyIn (.str "..") g with
              | error e => rw [h3] at h; simp at h
              | ok trav =>
                  rw [h3] at h
                  simp at h
                  subst h
                  rcases List.mem_cons.mp hs with hm | hm
                  · exact Or.inl hm
                  · split_ifs at hm
                    · simp at hm; exact Or.inr (Or.inl hm)
                    · simp at hm
      | true =>
          cases h2 : pySubscript v "path" with
          | error e => rw [h2] at h; simp at h
          | ok p =>
              rw [h2] at h
              simp only [exceptBind_ok] at h
              cases h3 : asStrA p with
              | error e => rw [h3] at h; simp at h
              | ok ps =>
                  rw [h3] at h
                  simp only [exceptBind_ok] at h
                  cases h4 : pyDictGet v "path" (.str "") with
                  | error e => rw [h4] at h; simp at h
                  | ok g =>
                      rw [h4] at h
                      simp only [exceptBind_ok] at h
                      cases h5 : pyIn (.str "..") g with
                      | error e => rw [h5] at h; simp at h
                      | ok trav =>
                          rw [h5] at h
                          simp at h
                          subst h
                          rcases List.mem_append.mp hs with hm | hm
                          · split_ifs at hm
                            · simp at hm
                            · simp at hm
                              subst hm
                              exact Or.inr (Or.inr ⟨ps, rfl⟩)
                          · split_ifs at hm
                            · simp at hm; exact Or.inr (Or.inl hm)
                            · simp at hm

theorem checkVolume_ok (v : PyVal) (h : wtVolume v = true) :
    ∃ l, ConfigValidator.checkVolume v = .ok l := by
  cases v <;> simp [wtVolume] at h
  rename_i d
  cases hpath : pyLookup d "path" with
  | none =>
      simp [ConfigValidator.checkVolume, any_key_eq_isSome, hpath, pyDictGet, pyIn]
  | some pv =>
      rw [hpath] at h
      cases pv <;> simp [wtFieldStr] at h
      rename_i ps
      simp [ConfigValidator.checkVolume, any_key_eq_isSome, hpath, pySubscript,
            asStrA, pyDictGet, pyIn]

theorem checkVolumeList_subset (vs : List PyVal) (l : List String)
    (h : ConfigValidator.checkVolumeList vs = .ok l) :
    ∀ s ∈ l, s = "Volume missing path" ∨ s = "Path traversal not allowed in volumes" ∨
      ∃ t, s = "Volume path must start with /app/: " ++ t := by
  induction vs generalizing l with
  | nil =>
      intro s hs
      simp only [ConfigValidator.checkVolumeList] at h
      simp at h; subst h; simp at hs
  | cons v rest ih =>
      intro s hs
      simp only [ConfigValidator.checkVolumeList] at h
      cases h1 : ConfigValidator.checkVolume v with
      | error e => rw [h1] at h; simp at h
      | ok e1 =>
          rw [h1] at h
          simp only [exceptBind_ok] at h
          cases h2 : ConfigValidator.checkVolumeList rest with
          | error e => rw [h2] at h; simp at h
          | ok es =>
              rw [h2] at h
              simp at h
              subst h
              rcases List.mem_append.mp hs with hm | hm
              · exact checkVolume_subset v e1 h1 s hm
              · exact ih es h2 s hm

theorem checkVolumeList_ok (vs : List PyVal) (h : vs.all wtVolume = true) :
    ∃ l, ConfigValidator.checkVolumeList vs = .ok l := by
  induction vs with
  | nil => exact ⟨[], rfl⟩
  | cons v rest ih =>
      simp only [List.all_cons, Bool.and_eq_true] at h
      obtain ⟨l1, h1⟩ := checkVolume_ok v h.1
      obtain ⟨l2, h2⟩ := ih h.2
      exact ⟨l1 ++ l2, by simp [ConfigValidator.checkVolumeList, h1, h2]⟩

theorem checkVolumes_subset (config : PyDict) (l : List String)
    (h : ConfigValidator.checkVolumes config = .ok l) :
    ∀ s ∈ l, s = "Volume missing path" ∨ s = "Path traversal not allowed in volumes" ∨
      ∃ t, s = "Volume path must start with /app/: " ++ t := by
  intro s hs
  cases hvs : pyLookup config "volumes" with
  | none =>
      simp only [ConfigValidator.checkVolumes, hvs] at h
      simp at h; subst h; simp at hs
  | some vv =>
      simp only [ConfigValidator.checkVolumes, hvs] at h
      cases h1 : pyIterate vv with
      | error e => rw [h1] at h; simp at h
      | ok items =>
          rw [h1] at h
          simp only [exceptBind_ok] at h
          exact checkVolumeList_subset items l h s hs

theorem checkVolumes_ok (config : PyDict)
    (h : wtVolumes (pyLookup config "volumes") = true) :
    ∃ l, ConfigValidator.checkVolumes config = .ok l := by
  cases hvs : pyLookup config "volumes" with
  | none => exact ⟨[], by simp [ConfigValidator.checkVolumes, hvs]⟩
  | some vv =>
      rw [hvs] at h
      cases vv <;> simp [wtVolumes] at h
      rename_i vs
      obtain ⟨l, hl⟩ := checkVolumeList_ok vs (by simpa using h)
      exact ⟨l, by simp [ConfigValidator.checkVolumes, hvs, pyIterate, hl]⟩

theorem validate_eq (config : PyDict) (l3 l4 l5 l6 l7 : List String)
    (h3 : ConfigValidator.checkService config = .ok l3)
    (h4 : ConfigValidator.checkRouting config = .ok l4)
    (h5 : ConfigValidator.checkResources config = .ok l5)
    (h6 : ConfigValidator.checkDeployment config = .ok l6)
    (h7 : ConfigValidator.checkVolumes config = .ok l7) :
    ConfigValidator.validate config =
      .ok ((ConfigValidator.checkRequired config ++ ConfigValidator.checkVersion config ++
              l3 ++ l4 ++ l5 ++ l6 ++ l7).isEmpty,
           ConfigValidator.checkRequired config ++ ConfigValidator.checkVersion config ++
              l3 ++ l4 ++ l5 ++ l6 ++ l7) := by
  simp [ConfigValidator.validate, h3, h4, h5, h6, h7]

/-- C3 (amended): `ConfigValidator.validate` is pure and deterministic,
and total on every input dictionary whose present fields carry the types
the code expects (dict sections; string `service.name`, `routing.domain`,
`resources.memory`; integer `routing.port`; list-of-dict `volumes` with
string paths).  On wrongly-typed fields — e.g. a non-string memory value —
it raises instead of returning a violation pair (see the counterexample). -/
theorem c3_validate_total_on_well_typed (config : PyDict)
    (h : WellTypedConfig config = true) :
    ∃ r, ConfigValidator.validate config = .ok r := by
  simp only [WellTypedConfig, Bool.and_eq_true] at h
  obtain ⟨⟨⟨⟨hs, hr⟩, hres⟩, hdep⟩, hvol⟩ := h
  obtain ⟨l3, h3⟩ := checkService_ok config hs
  obtain ⟨l4, h4⟩ := checkRouting_ok config hr
  obtain ⟨l5, h5⟩ := checkResources_ok config hres
  obtain ⟨l6, h6⟩ := checkDeployment_ok config hdep
  obtain ⟨l7, h7⟩ := checkVolumes_ok config hvol
  exact ⟨_, validate_eq config l3 l4 l5 l6 l7 h3 h4 h5 h6 h7⟩

/-- C3 counterexample: on a dictionary whose `resources.memory` is the
integer 512, `validate` raises (`512 .endswith` → `AttributeError`)
instead of returning a `(bool, violations)` pair. -/
theorem c3_counterexample :
    ConfigValidator.validate c3BadConfig = .error PyErr.attributeError := rfl

theorem c3_witness :
    ∃ r, ConfigValidator.validate c3GoodConfig = .ok r :=
  c3_validate_total_on_well_typed c3GoodConfig rfl

theorem isEmpty_false_of_mem {α : Type} {a : α} {l : List α} (h : a ∈ l) :
    l.isEmpty = false := by
  cases l with
  | nil => simp at h
  | cons x xs => rfl

theorem volMsg_not_memory (s : String)
    (h : s = "Volume missing path" ∨ s = "Path traversal not allowed in volumes" ∨
         ∃ t, s = "Volume path must start with /app/: " ++ t) :
    s ∉ memoryMsgs := by
  intro hs
  rcases h with rfl | rfl | ⟨t, rfl⟩
  · exact absurd hs (by decide)
  · exact absurd hs (by decide)
  · have hlen : ∀ x ∈ memoryMsgs,
        x.length < ("Volume path must start with /app/: " : String).length := by decide
    have h2 := hlen _ hs
    rw [String.length_append] at h2
    omega

/-- C7: the memory bounds are enforced exactly at the boundary — for every
well-typed config whose `resources.memory` is the string `m`, `validate`
returns without raising, emits no memory violation for `64m` or `1g`, and
emits the corresponding minimum/maximum violation (with overall failure)
for `63m` and `2g`. -/
theorem c7_memory_bounds_exact (config rs : PyDict) (m : String)
    (hwt : WellTypedConfig config = true)
    (hres : pyLookup config "resources" = some (.dict rs))
    (hmem : pyLookup rs "memory" = some (.str m)) :
    ∃ b errs, ConfigValidator.validate config = .ok (b, errs) ∧
      ((m = "64m" ∨ m = "1g") → ∀ v ∈ memoryMsgs, v ∉ errs) ∧
      (m = "63m" → "Memory must be at least 64m" ∈ errs ∧ b = false) ∧
      (m = "2g" → "Memory limit exceeds 1GB" ∈ errs ∧ b = false) := by
  simp only [WellTypedConfig, Bool.and_eq_true] at hwt
  obtain ⟨⟨⟨⟨hws, hwr⟩, hwres⟩, hwdep⟩, hwvol⟩ := hwt
  obtain ⟨l3, h3⟩ := checkService_ok config hws
  obtain ⟨l4, h4⟩ := checkRouting_ok config hwr
  have h5 := checkResources_eq_memErrs config rs m hres hmem
  obtain ⟨l6, h6⟩ := checkDeployment_ok config hwdep
  obtain ⟨l7, h7⟩ := checkVolumes_ok config hwvol
  have hveq := validate_eq config l3 l4 _ l6 l7 h3 h4 h5 h6 h7
  refine ⟨_, _, hveq, ?_, ?_, ?_⟩
  · intro hm v hv hvin
    have hE : ConfigValidator.memErrsOfStr m = [] := by
      rcases hm with rfl | rfl <;> rfl
    rw [hE] at hvin
    simp only [List.mem_append, List.not_mem_nil, or_false, false_or] at hvin
    rcases hvin with ((((hx | hx) | hx) | hx) | hx) | hx
    · have h1 := checkRequired_subset config v hx
      have hno : ∀ x ∈ ["Missing required field: version", "Missing required field: service",
                        "Missing required field: routing", "Missing required field: resources",
                        "Missing required field: healthcheck"], x ∉ memoryMsgs := by decide
      exact hno v h1 hv
    · have h1 := checkVersion_subset config v hx
      subst h1
      exact absurd hv (by decide)
    · have h1 := checkService_subset config l3 h3 v hx
      have hno : ∀ x ∈ ["Missing service.name",
                        "Service name must be alphanumeric with hyphens only",
                        "Missing service.image"], x ∉ memoryMsgs := by decide
      exact hno v h1 hv
    · have h1 := checkRouting_subset config l4 h4 v hx
      have hno : ∀ x ∈ ["Missing routing.domain", "Domain must end with .volodic.com",
                        "Missing routing.port", "Port must be between 3000 and 9999"],
          x ∉ memoryMsgs := by decide
      exact hno v h1 hv
    · have h1 := checkDeployment_subset config l6 h6 v hx
      have hno : ∀ x ∈ ["Privileged mode is not allowed", "Adding capabilities is not allowed",
                        "Host/none network mode not allowed"], x ∉ memoryMsgs := by decide
      exact hno v h1 hv
    · have h1 := checkVolumes_subset config l7 h7 v hx
      exact volMsg_not_memory v h1 hv
  · rintro rfl
    have hmm : "Memory must be at least 64m" ∈
        ConfigValidator.checkRequired config ++ ConfigValidator.checkVersion config ++
          l3 ++ l4 ++ ConfigValidator.memErrsOfStr "63m" ++ l6 ++ l7 := by
      simp only [List.mem_append]
      exact Or.inl (Or.inl (Or.inr (by decide)))
    exact ⟨hmm, isEmpty_false_of_mem hmm⟩
  · rintro rfl
    have hmm : "Memory limit exceeds 1GB" ∈
        ConfigValidator.checkRequired config ++ ConfigValidator.checkVersion config ++
          l3 ++ l4 ++ ConfigValidator.memErrsOfStr "2g" ++ l6 ++ l7 := by
      simp only [List.mem_append]
      exact Or.inl (Or.inl (Or.inr (by decide)))
    exact ⟨hmm, isEmpty_false_of_mem hmm⟩

theorem c7_witness :
    ∃ b errs, ConfigValidator.validate
      [("version", .str "1.0"),
       ("service", .dict [("name", .str "light"), ("image", .str "img")]),
       ("routing", .dict [("domain", .str "light.volodic.com"), ("port", .int 3000)]),
       ("resources", .dict [("memory", .str "64m")]),
       ("healthcheck", .dict [])] = .ok (b, errs) ∧
      ((("64m" : String) = "64m" ∨ ("64m" : String) = "1g") → ∀ v ∈ memoryMsgs, v ∉ errs) ∧
      (("64m" : String) = "63m" → "Memory must be at least 64m" ∈ errs ∧ b = false) ∧
      (("64m" : String) = "2g" → "Memory limit exceeds 1GB" ∈ errs ∧ b = false) :=
  c7_memory_bounds_exact
    [("version", .str "1.0"),
     ("service", .dict [("name", .str "light"), ("image", .str "img")]),
     ("routing", .dict [("domain", .str "light.volodic.com"), ("port", .int 3000)]),
     ("resources", .dict [("memory", .str "64m")]),
     ("healthcheck", .dict [])]
    [("memory", .str "64m")] "64m" rfl rfl rfl

/-- C1 (amended): the deploy pipeline's own validation
(`validate_deployment_config`) checks only that the keys `service`,
`routing` and `resources` exist; for every fetched config with those keys
and a `routing.port` outside [3000, 9999], `deploy_service` still invokes
`StackDeployer.deploy`.  Only `ConfigValidator.validate` — which the
pipeline never calls — reports the port-range violation. -/
theorem c1_pipeline_ignores_port_range
    (env : DeployApi.DeployEnv) (config rt : PyDict) (p : Int)
    (hfetch : env.fetchResult = .ok (.dict config))
    (hs : (pyLookup config "service").isSome = true)
    (hr : pyLookup config "routing" = some (.dict rt))
    (hres : (pyLookup config "resources").isSome = true)
    (hwt : WellTypedConfig config = true)
    (hport : pyLookup rt "port" = some (.int p))
    (hout : p < 3000 ∨ 9999 < p) :
    (DeployApi.deploy_service env).swarmInvoked = true ∧
    ∃ errs, ConfigValidator.validate config = .ok (false, errs) ∧
      "Port must be between 3000 and 9999" ∈ errs := by
  constructor
  · have hv : DeployApi.validate_deployment_config (.dict config) = .ok true := by
      simp [DeployApi.validate_deployment_config, pyIn_key_dict, hs, hr, hres]
    cases hsw : env.swarmResult <;>
      simp [DeployApi.deploy_service, hfetch, hv, hsw]
  · simp only [WellTypedConfig, Bool.and_eq_true] at hwt
    obtain ⟨⟨⟨⟨hws, hwr⟩, hwres⟩, hwdep⟩, hwvol⟩ := hwt
    obtain ⟨l3, h3⟩ := checkService_ok config hws
    rw [hr] at hwr
    simp only [wtRouting, Bool.and_eq_true] at hwr
    obtain ⟨l41, h41⟩ := checkRoutingDomain_ok rt hwr.1
    have h42 := checkRoutingPort_out_of_range rt p hport hout
    have h4 : ConfigValidator.checkRouting config =
        .ok (l41 ++ ["Port must be between 3000 and 9999"]) := by
      simp [ConfigValidator.checkRouting, hr, h41, h42]
    obtain ⟨l5, h5⟩ := checkResources_ok config hwres
    obtain ⟨l6, h6⟩ := checkDeployment_ok config hwdep
    obtain ⟨l7, h7⟩ := checkVolumes_ok config hwvol
    have hveq := validate_eq config l3 _ l5 l6 l7 h3 h4 h5 h6 h7
    have hmm : "Port must be between 3000 and 9999" ∈
        ConfigValidator.checkRequired config ++ ConfigValidator.checkVersion config ++
          l3 ++ (l41 ++ ["Port must be between 3000 and 9999"]) ++ l5 ++ l6 ++ l7 := by
      simp only [List.mem_append]
      exact Or.inl (Or.inl (Or.inl (Or.inr (Or.inr (by decide)))))
    refine ⟨_, ?_, hmm⟩
    rw [hveq, isEmpty_false_of_mem hmm]

/-- C1 counterexample: `c1Config` has `routing.port = 70000` and all three
keys the pipeline checks, so `deploy_service` invokes the stack deploy,
even though `ConfigValidator.validate` rejects exactly on the port range. -/
theorem c1_counterexample :
    (DeployApi.deploy_service c1Env).swarmInvoked = true ∧
    ConfigValidator.validate c1Config =
      .ok (false, ["Port must be between 3000 and 9999"]) :=
  ⟨rfl, rfl⟩

theorem c1_witness :
    (DeployApi.deploy_service c1Env).swarmInvoked = true ∧
    ∃ errs, ConfigValidator.validate c1Config = .ok (false, errs) ∧
      "Port must be between 3000 and 9999" ∈ errs :=
  c1_pipeline_ignores_port_range c1Env c1Config
    [("domain", .str "light.volodic.com"), ("port", .int 70000)] 70000
    rfl rfl rfl rfl rfl rfl (by decide)
